import Mathlib

/-!
Verification development for the qBandas packing/batching pipeline.

The definitions below are a shallow embedding of the Python sources:

* qbandas/pack.py        -- the value packers and the PACKING_FUNCS registry
* parsers.py             -- the per-column parse functions used by transform
* qbandas/__init__.py    -- transform, payloads (the pipeline)
* src/qbandas/config.py  -- the field_types registry (types with no packer)
* src/qbandas/upload.py  -- the per-column packing loop of upload_records

Conventions of the embedding:

* Python None / NaN / NaT (everything pandas pd.isna flags) is the single
  constructor RawVal.null.
* Python floats are modelled as rationals; int(x) truncates toward zero, as
  Python does.  int() on strings is modelled for sign-plus-digit strings;
  other strings are a value error (Python additionally strips whitespace,
  which no claim exercises).
* A Python dict literal built by a packer is an association list, so the
  single-key shape of packed values is a provable fact, not a typing
  artifact.
* Raising is modelled by Except: Except.error carries a constructor naming
  the raise site.  The phone packer's IndexError re-raise and its
  too-few-digits raise produce the same message in Python; they are kept as
  distinct constructors to record which branch fired.
* datetime.strptime is modelled for the directives the repository uses
  (literals, %%, %d, %m, %b, %Y, %H, %M, %S, %f), with range validation of
  the parsed fields; strftime is modelled for the two fixed output formats
  the packers use.
-/

namespace QBandas

/-- Model of a naive Python datetime value: the seven components
datetime.strptime can fill in for the formats the repository uses. -/
structure DateTime where
  year : Nat
  month : Nat
  day : Nat
  hour : Nat
  minute : Nat
  second : Nat
  microsecond : Nat
deriving DecidableEq, Repr

/-- A raw scalar cell of a dataframe: null/NaN, int, float (as a rational),
string, bool, or an already-structured datetime object. -/
inductive RawVal where
  | null
  | i (n : Int)
  | q (x : Rat)
  | s (t : String)
  | b (x : Bool)
  | dt (d : DateTime)
deriving DecidableEq, Repr

/-- The raise sites of the embedded code.  Constructors carry the data the
Python exception message mentions. -/
inductive Err where
  | typeErr
  | valueErr
  | indexErr
  | phoneParseErr
  | unitErr (unit : String)
  | missingColType (col : String)
  | missingArg (col : String)
  | invalidType (col : String)
  | fidMissing (col : String)
  | colFail (col ctype : String)
deriving DecidableEq, Repr

/-- A packed dict such as the literal built by a packer; an association
list standing for a Python dict. -/
abbrev PackedDict := List (String × RawVal)

/-- A packed cell: None (absent) or a packed dict. -/
abbrev Packed := Option PackedDict

/-- pd.isna: true exactly on the null/NaN marker. -/
def isna : RawVal → Bool
  | .null => true
  | _ => false

/-- Truncation of a rational toward zero, the behavior of Python int() on a
float. -/
def truncQ (x : Rat) : Int :=
  Int.tdiv x.num x.den

/-- Numeric value of a list of decimal digit characters. -/
def digitsToNat (cs : List Char) : Nat :=
  cs.foldl (fun a c => 10 * a + (c.toNat - 48)) 0

/-- Python int() on a string: optional sign followed by at least one digit;
anything else raises ValueError. -/
def parseIntStr (t : String) : Except Err Int :=
  match t.data with
  | '-' :: rest =>
      if rest ≠ [] ∧ rest.all Char.isDigit then .ok (-(digitsToNat rest : Int))
      else .error .valueErr
  | '+' :: rest =>
      if rest ≠ [] ∧ rest.all Char.isDigit then .ok (digitsToNat rest)
      else .error .valueErr
  | cs =>
      if cs ≠ [] ∧ cs.all Char.isDigit then .ok (digitsToNat cs)
      else .error .valueErr

/-- Python int(x) on a scalar: ints pass through, floats truncate toward
zero, bools become 0/1, strings parse, anything else raises. -/
def pyInt : RawVal → Except Err Int
  | .null => .error .typeErr
  | .i n => .ok n
  | .q x => .ok (truncQ x)
  | .b b => .ok (if b then 1 else 0)
  | .s t => parseIntStr t
  | .dt _ => .error .typeErr

/-- Zero-pad a natural to two decimal digits, as strftime %m %d %H %M %S do. -/
def pad2 (n : Nat) : String :=
  if n < 10 then "0" ++ toString n else toString n

/-- Zero-pad a natural to four decimal digits, as strftime %Y does. -/
def pad4 (n : Nat) : String :=
  if n < 10 then "000" ++ toString n
  else if n < 100 then "00" ++ toString n
  else if n < 1000 then "0" ++ toString n
  else toString n

/-- strftime with the fixed format the date packer uses: %Y-%m-%d. -/
def fmtDate (d : DateTime) : String :=
  pad4 d.year ++ "-" ++ pad2 d.month ++ "-" ++ pad2 d.day

/-- strftime with the fixed format the datetime packer uses:
%Y-%m-%dT%H:%M:%SZ.  The microsecond component is never consulted and the
Z is a literal character. -/
def fmtDateTimeZ (d : DateTime) : String :=
  fmtDate d ++ "T" ++ pad2 d.hour ++ ":" ++ pad2 d.minute ++ ":" ++
    pad2 d.second ++ "Z"

/-- The twelve month abbreviations %b accepts, lowercased. -/
def monthAbbrevs : List (List Char) :=
  [['j','a','n'], ['f','e','b'], ['m','a','r'], ['a','p','r'],
   ['m','a','y'], ['j','u','n'], ['j','u','l'], ['a','u','g'],
   ['s','e','p'], ['o','c','t'], ['n','o','v'], ['d','e','c']]

/-- Read up to maxN leading decimal digits (at least one); returns the value
and the rest of the input. -/
def parseDigits (maxN : Nat) (cs : List Char) : Option (Nat × List Char) :=
  let ds := (cs.take maxN).takeWhile Char.isDigit
  if ds = [] then none
  else some (digitsToNat ds, cs.drop ds.length)

/-- Read a three-letter month abbreviation, case-insensitively, as %b does. -/
def parseMonthAbbrev (cs : List Char) : Option (Nat × List Char) :=
  let pre := (cs.take 3).map Char.toLower
  match (monthAbbrevs.indexOf pre) with
  | 12 => none
  | k => if pre.length = 3 then some (k + 1, cs.drop 3) else none

/-- Model of datetime.strptime restricted to the directives the repository
uses.  Walks the format; literals must match the input; the whole input
must be consumed.  %f scales to microseconds as Python does. -/
def strptimeAux : List Char → List Char → DateTime → Option DateTime
  | [], [], acc => some acc
  | [], _ :: _, _ => none
  | '%' :: d :: fs, cs, acc =>
      match d with
      | '%' => match cs with
               | '%' :: cs2 => strptimeAux fs cs2 acc
               | _ => none
      | 'd' => match parseDigits 2 cs with
               | some (n, cs2) => strptimeAux fs cs2 { acc with day := n }
               | none => none
      | 'm' => match parseDigits 2 cs with
               | some (n, cs2) => strptimeAux fs cs2 { acc with month := n }
               | none => none
      | 'b' => match parseMonthAbbrev cs with
               | some (n, cs2) => strptimeAux fs cs2 { acc with month := n }
               | none => none
      | 'Y' => match parseDigits 4 cs with
               | some (n, cs2) => strptimeAux fs cs2 { acc with year := n }
               | none => none
      | 'H' => match parseDigits 2 cs with
               | some (n, cs2) => strptimeAux fs cs2 { acc with hour := n }
               | none => none
      | 'M' => match parseDigits 2 cs with
               | some (n, cs2) => strptimeAux fs cs2 { acc with minute := n }
               | none => none
      | 'S' => match parseDigits 2 cs with
               | some (n, cs2) => strptimeAux fs cs2 { acc with second := n }
               | none => none
      | 'f' => match parseDigits 6 cs with
               | some (n, cs2) =>
                   let digits := ((cs.take 6).takeWhile Char.isDigit).length
                   strptimeAux fs cs2
                     { acc with microsecond := n * 10 ^ (6 - digits) }
               | none => none
      | _ => none
  | c :: fs, c2 :: cs, acc => if c = c2 then strptimeAux fs cs acc else none
  | _ :: _, [], _ => none

/-- Range validation strptime performs before building the datetime. -/
def validDateTime (d : DateTime) : Bool :=
  1 ≤ d.month && d.month ≤ 12 && 1 ≤ d.day && d.day ≤ 31 &&
  d.hour ≤ 23 && d.minute ≤ 59 && d.second ≤ 59 && d.microsecond ≤ 999999

/-- datetime.strptime(input, format): parse then validate; the default
components are year 1900, month 1, day 1, time zero. -/
def strptime (format input : String) : Option DateTime :=
  match strptimeAux format.data input.data
      ⟨1900, 1, 1, 0, 0, 0, 0⟩ with
  | some d => if validDateTime d then some d else none
  | none => none

/-! ## The value packers of qbandas/pack.py

Each Python packer with an optional keyword argument is embedded with an
Option String argument; a missing argument selects the Python default, as
binding no keyword does. -/

/-- pack._pack_default: absent on null, otherwise the value wrapped in a
single-key dict. -/
def _pack_default (x : RawVal) : Except Err Packed :=
  if isna x then .ok none
  else .ok (some [("value", x)])

/-- pack._pack_duration: absent on null; otherwise int(x) first, then the
unit is examined: seconds multiplies by 1000, milliseconds passes through,
anything else raises. -/
def _pack_duration (x : RawVal) (arg : Option String) : Except Err Packed :=
  if isna x then .ok none
  else
    match pyInt x with
    | .error e => .error e
    | .ok n =>
        if arg.getD "seconds" = "seconds" then .ok (some [("value", .i (n * 1000))])
        else if arg.getD "seconds" = "milliseconds" then .ok (some [("value", .i n)])
        else .error (.unitErr (arg.getD "seconds"))

/-- Shared body of the date packers: absent on null; a datetime object is
formatted directly; a string is parsed with the format first; any other
type raises. -/
def datePackCore (x : RawVal) (format : String) : Except Err Packed :=
  if isna x then .ok none
  else
    match x with
    | .dt d => .ok (some [("value", .s (fmtDate d))])
    | .s t =>
        match strptime format t with
        | some d => .ok (some [("value", .s (fmtDate d))])
        | none => .error .valueErr
    | _ => .error .typeErr

/-- pack._pack_date with its default format %m.%d.%Y. -/
def _pack_date (x : RawVal) (arg : Option String) : Except Err Packed :=
  datePackCore x (arg.getD "%m.%d.%Y")

/-- Shared body of the datetime packers; identical control flow to the date
packers but formatting with fmtDateTimeZ. -/
def datetimePackCore (x : RawVal) (format : String) : Except Err Packed :=
  if isna x then .ok none
  else
    match x with
    | .dt d => .ok (some [("value", .s (fmtDateTimeZ d))])
    | .s t =>
        match strptime format t with
        | some d => .ok (some [("value", .s (fmtDateTimeZ d))])
        | none => .error .valueErr
    | _ => .error .typeErr

/-- pack._pack_datetime with its default format %d%b%Y:%H:%M:%S.%f. -/
def _pack_datetime (x : RawVal) (arg : Option String) : Except Err Packed :=
  datetimePackCore x (arg.getD "%d%b%Y:%H:%M:%S.%f")

/-- The digit-collecting comprehension of the phone packers:
[x[i] for i in range(len(x)) if format[i] == '#'].  Walks raw and template
in lock-step over the raw positions; running past the template end is the
IndexError the Python code catches. -/
def collectDigits : List Char → List Char → Option (List Char)
  | [], _ => some []
  | _ :: _, [] => none
  | c :: xs, f :: fs =>
      match collectDigits xs fs with
      | none => none
      | some r => some (if f = '#' then c :: r else r)

/-- str.isnumeric restricted to ASCII digits: true on a nonempty all-digit
string (no claim exercises non-ASCII numerics). -/
def isNumericStr (cs : List Char) : Bool :=
  cs ≠ [] && cs.all Char.isDigit

/-- Render the first ten collected digits as (AAA) BBB-CCCC, with a
space-x extension for anything beyond the tenth digit. -/
def renderPhone (y : List Char) : String :=
  let base := "(" ++ String.mk (y.take 3) ++ ") " ++
    String.mk ((y.drop 3).take 3) ++ "-" ++ String.mk ((y.drop 6).take 4)
  if 10 < y.length then base ++ " x" ++ String.mk (y.drop 10)
  else base

/-- Shared body of the phone packers: absent on null; requires a string;
collects raw characters at the template's number-sign positions
(IndexError if the raw string is longer than the template); raises if
fewer than ten digits were collected or any collected character is not a
digit; otherwise renders the standard phone shape. -/
def phonePackCore (x : RawVal) (format : String) : Except Err Packed :=
  if isna x then .ok none
  else
    match x with
    | .s t =>
        match collectDigits t.data format.data with
        | none => .error .indexErr
        | some y =>
            if ¬ isNumericStr y ∨ y.length < 10 then .error .phoneParseErr
            else .ok (some [("value", .s (renderPhone y))])
    | _ => .error .typeErr

/-- pack._pack_phonenum with its default all-number-sign format. -/
def _pack_phonenum (x : RawVal) (arg : Option String) : Except Err Packed :=
  phonePackCore x (arg.getD "##########")

/-- pack.PACKING_FUNCS: the registry of the five implemented packers. -/
def PACKING_FUNCS : List (String × (RawVal → Option String → Except Err Packed)) :=
  [("default", fun x _ => _pack_default x),
   ("duration", _pack_duration),
   ("date", _pack_date),
   ("datetime", _pack_datetime),
   ("phonenum", _pack_phonenum)]

instance {e a : Type} [DecidableEq e] [DecidableEq a] : DecidableEq (Except e a)
  | .error x, .error y =>
      if h : x = y then .isTrue (by rw [h]) else .isFalse (fun c => h (Except.error.inj c))
  | .error _, .ok _ => .isFalse Except.noConfusion
  | .ok _, .error _ => .isFalse Except.noConfusion
  | .ok x, .ok y =>
      if h : x = y then .isTrue (by rw [h]) else .isFalse (fun c => h (Except.ok.inj c))

/-! ## Shape of packed values (helper lemmas) -/

/-- The wrapped-or-absent shape of a packed value. -/
def goodShape (r : Packed) : Prop :=
  r = none ∨ ∃ v, r = some [("value", v)]

theorem shape_default (x : RawVal) (r : Packed)
    (h : _pack_default x = .ok r) : goodShape r := by
  unfold _pack_default at h
  split at h
  · exact Or.inl (Except.ok.inj h).symm
  · exact Or.inr ⟨x, (Except.ok.inj h).symm⟩

theorem shape_duration (x : RawVal) (arg : Option String) (r : Packed)
    (h : _pack_duration x arg = .ok r) : goodShape r := by
  unfold _pack_duration at h
  split at h
  · exact Or.inl (Except.ok.inj h).symm
  · split at h
    · exact Except.noConfusion h
    · split at h
      · exact Or.inr ⟨_, (Except.ok.inj h).symm⟩
      · split at h
        · exact Or.inr ⟨_, (Except.ok.inj h).symm⟩
        · exact Except.noConfusion h

theorem shape_dateCore (x : RawVal) (format : String) (r : Packed)
    (h : datePackCore x format = .ok r) : goodShape r := by
  unfold datePackCore at h
  split at h
  · exact Or.inl (Except.ok.inj h).symm
  · split at h
    · exact Or.inr ⟨_, (Except.ok.inj h).symm⟩
    · split at h
      · exact Or.inr ⟨_, (Except.ok.inj h).symm⟩
      · exact Except.noConfusion h
    · exact Except.noConfusion h

theorem shape_datetimeCore (x : RawVal) (format : String) (r : Packed)
    (h : datetimePackCore x format = .ok r) : goodShape r := by
  unfold datetimePackCore at h
  split at h
  · exact Or.inl (Except.ok.inj h).symm
  · split at h
    · exact Or.inr ⟨_, (Except.ok.inj h).symm⟩
    · split at h
      · exact Or.inr ⟨_, (Except.ok.inj h).symm⟩
      · exact Except.noConfusion h
    · exact Except.noConfusion h

theorem shape_phoneCore (x : RawVal) (format : String) (r : Packed)
    (h : phonePackCore x format = .ok r) : goodShape r := by
  unfold phonePackCore at h
  split at h
  · exact Or.inl (Except.ok.inj h).symm
  · split at h
    · split at h
      · exact Except.noConfusion h
      · split at h
        · exact Except.noConfusion h
        · exact Or.inr ⟨_, (Except.ok.inj h).symm⟩
    · exact Except.noConfusion h

end QBandas

namespace QBandas

/-- C3: for every packer in the PACKING_FUNCS registry and every input and
argument on which it returns normally, the result is either the absent
marker or a dict with exactly the single key "value". -/
theorem c3_packed_value_shape :
    ∀ p ∈ PACKING_FUNCS, ∀ (x : RawVal) (arg : Option String) (r : Packed),
      p.2 x arg = .ok r → r = none ∨ ∃ v, r = some [("value", v)] := by
  intro p hp
  simp only [PACKING_FUNCS, List.mem_cons, List.not_mem_nil, or_false] at hp
  rcases hp with rfl | rfl | rfl | rfl | rfl
  · exact fun x arg r h => shape_default x r h
  · exact fun x arg r h => shape_duration x arg r h
  · exact fun x arg r h => shape_dateCore x _ r h
  · exact fun x arg r h => shape_datetimeCore x _ r h
  · exact fun x arg r h => shape_phoneCore x _ r h

/-- Witness for C3: the duration packer at a concrete input. -/
theorem c3_witness :
    (some [("value", RawVal.i 7)] : Packed) = none ∨
      ∃ v, (some [("value", RawVal.i 7)] : Packed) = some [("value", v)] :=
  c3_packed_value_shape ("duration", _pack_duration)
    (List.Mem.tail _ (List.Mem.head _)) (.i 7) (some "milliseconds")
    (some [("value", RawVal.i 7)]) rfl

/-- C5 counterexample: at the non-null numeric value 5.9 with unit seconds,
the packer returns 5000 milliseconds, not d*1000 = 5900 as the claim
states for every numeric d. -/
theorem c5_counterexample :
    _pack_duration (.q (mkRat 59 10)) (some "seconds")
        = .ok (some [("value", .i 5000)]) ∧
      (mkRat 59 10 : Rat) = 59/10 ∧
      (59/10 : Rat) * 1000 = 5900 ∧ (5000 : Int) ≠ 5900 :=
  ⟨by decide, by norm_num [Rat.mkRat_eq_div], by norm_num, by decide⟩

/-- C5 (amended): for integer d, seconds packs to d*1000 and milliseconds
to d (in general the value is truncated to an integer first); for any
non-null value accepted by int coercion, any other unit string raises a
unit error instead of returning a value. -/
theorem c5_duration_equations :
    (∀ n : Int, _pack_duration (.i n) (some "seconds")
        = .ok (some [("value", .i (n * 1000))])) ∧
    (∀ n : Int, _pack_duration (.i n) (some "milliseconds")
        = .ok (some [("value", .i n)])) ∧
    (∀ (v : RawVal) (u : String) (n : Int), u ≠ "seconds" →
      u ≠ "milliseconds" → pyInt v = .ok n →
      _pack_duration v (some u) = .error (.unitErr u)) := by
  refine ⟨fun n => rfl, fun n => rfl, fun v u n hu1 hu2 hv => ?_⟩
  cases v with
  | null => exact Except.noConfusion hv
  | _ => simp [_pack_duration, isna, hv, hu1, hu2]

/-- Witness for C5: a concrete invalid unit raises. -/
theorem c5_witness :
    _pack_duration (.i 3) (some "hours") = .error (.unitErr "hours") :=
  c5_duration_equations.2.2 (.i 3) "hours" 3 (by decide) (by decide) rfl

/-- C7: every packer in the registry maps the null input to the absent
marker, for every argument, including invalid duration units and arbitrary
phone templates. -/
theorem c7_null_to_absent :
    ∀ p ∈ PACKING_FUNCS, ∀ arg : Option String, p.2 .null arg = .ok none := by
  intro p hp
  simp only [PACKING_FUNCS, List.mem_cons, List.not_mem_nil, or_false] at hp
  rcases hp with rfl | rfl | rfl | rfl | rfl <;> exact fun arg => rfl

/-- Witness for C7: null packed as a duration with an invalid unit is
still absent. -/
theorem c7_witness : _pack_duration .null (some "bogus") = .ok none :=
  c7_null_to_absent ("duration", _pack_duration)
    (List.Mem.tail _ (List.Mem.head _)) (some "bogus")

/-- C9: the duration packer coerces to an integer before unit scaling, so
whenever int() accepts the value, seconds yields int(v)*1000; in
particular 5.9 seconds and the numeric string "5" both pack to 5000
milliseconds. -/
theorem c9_duration_truncates_first :
    (∀ (v : RawVal) (n : Int), pyInt v = .ok n →
      _pack_duration v (some "seconds") = .ok (some [("value", .i (n * 1000))])) ∧
    _pack_duration (.q (mkRat 59 10)) (some "seconds")
        = .ok (some [("value", .i 5000)]) ∧
    _pack_duration (.s "5") (some "seconds")
        = .ok (some [("value", .i 5000)]) := by
  refine ⟨fun v n hv => ?_, by decide, by decide⟩
  cases v with
  | null => exact Except.noConfusion hv
  | _ => simp [_pack_duration, isna, hv]

/-- Witness for C9: the float 5.9 is truncated to 5 before scaling. -/
theorem c9_witness :
    _pack_duration (.q (mkRat 59 10)) (some "seconds")
      = .ok (some [("value", .i (5 * 1000))]) :=
  c9_duration_truncates_first.1 (.q (mkRat 59 10)) 5 (by decide)

end QBandas

namespace QBandas

/-! ## Phone template co-walk lemmas -/

/-- The digit collection reads raw characters only at positions where the
template holds a number sign: raw strings of equal length agreeing at
those positions collect identically. -/
theorem collectDigits_congr (xs xs2 fs : List Char)
    (hlen : xs.length = xs2.length)
    (hag : ∀ i, i < fs.length → fs.get? i = some '#' →
      xs.get? i = xs2.get? i) :
    collectDigits xs fs = collectDigits xs2 fs := by
  induction xs generalizing xs2 fs with
  | nil =>
    cases xs2 with
    | nil => rfl
    | cons c2 cr2 => simp at hlen
  | cons c cr ih =>
    cases xs2 with
    | nil => simp at hlen
    | cons c2 cr2 =>
      cases fs with
      | nil => rfl
      | cons f fr =>
        have hlen2 : cr.length = cr2.length := by simpa using hlen
        have hag2 : ∀ i, i < fr.length → fr.get? i = some '#' →
            cr.get? i = cr2.get? i := by
          intro i hi hf
          simpa using hag (i + 1) (by simpa using Nat.succ_lt_succ hi)
            (by simpa using hf)
        unfold collectDigits
        rw [ih cr2 fr hlen2 hag2]
        cases collectDigits cr2 fr with
        | none => rfl
        | some r =>
          by_cases hf : f = '#'
          · have hc : some c = some c2 := by
              simpa using hag 0 (by simp) (by simp [hf])
            rw [Option.some.inj hc]
          · simp [hf]

/-- Template positions beyond the length of the raw string are never read. -/
theorem collectDigits_take (xs fs : List Char) :
    collectDigits xs (fs.take xs.length) = collectDigits xs fs := by
  induction xs generalizing fs with
  | nil => rfl
  | cons c cr ih =>
    cases fs with
    | nil => rfl
    | cons f fr =>
      simp only [List.length_cons, List.take_succ_cons]
      unfold collectDigits
      rw [ih fr]

/-- When the template is at least as long as the raw string, the co-walk
never runs off the template: collection always produces a result. -/
theorem collectDigits_total (xs fs : List Char) (h : xs.length ≤ fs.length) :
    ∃ y, collectDigits xs fs = some y := by
  induction xs generalizing fs with
  | nil => exact ⟨[], rfl⟩
  | cons c cr ih =>
    cases fs with
    | nil => exact absurd h (by simp)
    | cons f fr =>
      obtain ⟨y, hy⟩ := ih fr (by simpa using h)
      exact ⟨if f = '#' then c :: y else y, by unfold collectDigits; rw [hy]⟩

/-- C4 counterexample: raw "Y9205551234" and same-length template
"X##########" disagree at position 0, where the template character is a
literal distinct from a number sign, yet packing succeeds instead of
raising. -/
theorem c4_counterexample :
    ("Y9205551234" : String).length = ("X##########" : String).length ∧
    ("X##########" : String).data.get? 0 = some 'X' ∧
    ("Y9205551234" : String).data.get? 0 = some 'Y' ∧
    'X' ≠ '#' ∧ 'X' ≠ 'Y' ∧
    _pack_phonenum (.s "Y9205551234") (some "X##########")
      = .ok (some [("value", .s "(920) 555-1234")]) := by
  refine ⟨rfl, rfl, rfl, by decide, by decide, by decide⟩

/-- C4 (amended): phone packing never compares non-number-sign template
positions with the raw string; the outcome depends only on the raw
characters at the template's number-sign positions, which contribute the
collected digit string (shown on the documented extension example). -/
theorem c4_literal_positions_ignored :
    (∀ (x x2 fmt : String), x.length = x2.length →
      (∀ i, i < fmt.data.length → fmt.data.get? i = some '#' →
        x.data.get? i = x2.data.get? i) →
      _pack_phonenum (.s x) (some fmt) = _pack_phonenum (.s x2) (some fmt)) ∧
    _pack_phonenum (.s "<920>888.1234x553") (some "<###>###.####x###")
      = .ok (some [("value", .s "(920) 888-1234 x553")]) := by
  refine ⟨fun x x2 fmt hlen hag => ?_, by decide⟩
  unfold _pack_phonenum phonePackCore
  simp only [Option.getD_some]
  rw [collectDigits_congr x.data x2.data fmt.data hlen hag]
  rfl

/-- Witness for C4: two raws differing only at a literal position pack
identically. -/
theorem c4_witness :
    _pack_phonenum (.s "Y9205551234") (some "X##########")
      = _pack_phonenum (.s "Z9205551234") (some "X##########") :=
  c4_literal_positions_ignored.1 "Y9205551234" "Z9205551234" "X##########"
    (by decide) (by decide)

/-- The phone packer on a string input, written as the branch structure of
the source: IndexError when the co-walk runs off the template, a parse
error when fewer than ten digits are collected or a collected character
is not a digit, otherwise the rendered number. -/
theorem pack_phonenum_s (t fmt : String) :
    _pack_phonenum (.s t) (some fmt) =
      match collectDigits t.data fmt.data with
      | none => .error .indexErr
      | some y =>
          if ¬ isNumericStr y ∨ y.length < 10 then .error .phoneParseErr
          else .ok (some [("value", .s (renderPhone y))]) := rfl

/-- C10: when the template is at least as long as the raw string, the
phone packer reads only the first len(raw) template positions and the
IndexError branch is unreachable; it succeeds whenever the collected
digit string holds at least ten digits; and a bare ten-digit raw under a
template ending in an extension suffix packs successfully. -/
theorem c10_short_raw_accepted :
    (∀ (t fmt : String), t.length ≤ fmt.length →
      _pack_phonenum (.s t) (some fmt) ≠ .error .indexErr ∧
      _pack_phonenum (.s t) (some fmt)
        = _pack_phonenum (.s t)
            (some (String.mk (fmt.data.take t.data.length))) ∧
      (∀ y, collectDigits t.data fmt.data = some y →
        isNumericStr y = true → 10 ≤ y.length →
        _pack_phonenum (.s t) (some fmt)
          = .ok (some [("value", .s (renderPhone y))]))) ∧
    _pack_phonenum (.s "9205551234") (some "##########x###")
      = .ok (some [("value", .s "(920) 555-1234")]) := by
  refine ⟨fun t fmt h => ⟨?_, ?_, ?_⟩, by decide⟩
  · obtain ⟨y, hy⟩ := collectDigits_total t.data fmt.data h
    rw [pack_phonenum_s, hy]
    show (if ¬ isNumericStr y = true ∨ y.length < 10 then
        (Except.error Err.phoneParseErr : Except Err Packed)
      else .ok (some [("value", .s (renderPhone y))])) ≠ .error .indexErr
    by_cases hc : ¬ isNumericStr y = true ∨ y.length < 10
    · rw [if_pos hc]
      exact fun hcontra => Err.noConfusion (Except.error.inj hcontra)
    · rw [if_neg hc]
      exact fun hcontra => Except.noConfusion hcontra
  · unfold _pack_phonenum phonePackCore
    simp only [Option.getD_some]
    rw [← collectDigits_take t.data fmt.data]
  · intro y hy hnum hlen
    simp [pack_phonenum_s, hy, hnum, Nat.not_lt.mpr hlen]

/-- Witness for C10: the bare ten-digit raw under the longer extension
template never hits the IndexError branch, via the theorem. -/
theorem c10_witness :
    _pack_phonenum (.s "9205551234") (some "##########x###")
        ≠ .error .indexErr :=
  (c10_short_raw_accepted.1 "9205551234" "##########x###" (by decide)).1

end QBandas

namespace QBandas

/-- C6: every normally returned datetime pack is the strftime rendering
%Y-%m-%dT%H:%M:%SZ of some parsed datetime; that rendering never consults
the sub-second component (truncation, not rounding) and ends in the
literal Z; and the documented fractional-second example packs as
specified. -/
theorem c6_datetime_truncates_and_z :
    (∀ (x : RawVal) (arg : Option String) (r : PackedDict),
      _pack_datetime x arg = .ok (some r) →
      ∃ d : DateTime, r = [("value", .s (fmtDateTimeZ d))]) ∧
    (∀ (d : DateTime) (micro : Nat),
      fmtDateTimeZ { d with microsecond := micro } = fmtDateTimeZ d) ∧
    _pack_datetime (.s "30Nov1974:14:56:08.967") (some "%d%b%Y:%H:%M:%S.%f")
      = .ok (some [("value", .s "1974-11-30T14:56:08Z")]) := by
  refine ⟨fun x arg r h => ?_, fun d micro => by cases d; rfl, by decide⟩
  unfold _pack_datetime datetimePackCore at h
  split at h
  · exact absurd (Except.ok.inj h) (by simp)
  · split at h
    · exact ⟨_, (Option.some.inj (Except.ok.inj h)).symm⟩
    · split at h
      · exact ⟨_, (Option.some.inj (Except.ok.inj h)).symm⟩
      · exact Except.noConfusion h
    · exact Except.noConfusion h

/-- Witness for C6: the shape statement at the documented example. -/
theorem c6_witness :
    ∃ d : DateTime, [("value", RawVal.s "1974-11-30T14:56:08Z")]
      = [("value", RawVal.s (fmtDateTimeZ d))] :=
  c6_datetime_truncates_and_z.1 (.s "30Nov1974:14:56:08.967")
    (some "%d%b%Y:%H:%M:%S.%f") [("value", RawVal.s "1974-11-30T14:56:08Z")]
    (by decide)

end QBandas

namespace QBandas

/-- The batching loop shared by payloads and the upload record sender:
for i in range(0, len(t), size): out.append(t[i:i+size]).  The Python
range enumerates the ceil(len/size) start indices k*size. -/
def batchSlices (t : List α) (size : Nat) : List (List α) :=
  (List.range ((t.length + size - 1) / size)).map
    (fun k => (t.drop (k * size)).take size)

theorem batchSlices_nil (size : Nat) :
    batchSlices ([] : List α) size = [] := by
  have h : (size - 1) / size = 0 := by
    rcases Nat.eq_zero_or_pos size with h | h
    · subst h; rfl
    · exact Nat.div_eq_of_lt (by omega)
  simp [batchSlices, h]

theorem batchSlices_cons (t : List α) (size : Nat) (hs : 1 ≤ size)
    (ht : t ≠ []) :
    batchSlices t size = t.take size :: batchSlices (t.drop size) size := by
  have hL : 1 ≤ t.length := List.length_pos.mpr ht
  have hcount : (t.length + size - 1) / size
      = (t.length - size + size - 1) / size + 1 := by
    rcases le_or_lt t.length size with hle | hlt
    · have h1 : t.length + size - 1 = size + (t.length - 1) := by omega
      have h2 : t.length - size = 0 := by omega
      rw [h1, h2, Nat.add_comm size (t.length - 1), Nat.add_div_right _ hs,
        Nat.div_eq_of_lt (by omega), Nat.div_eq_of_lt (by omega)]
    · have h1 : t.length + size - 1 = (t.length - 1) + size := by omega
      have h2 : t.length - size + size - 1 = t.length - 1 := by omega
      rw [h1, h2, Nat.add_div_right _ hs]
  unfold batchSlices
  rw [List.length_drop, hcount, List.range_succ_eq_map, List.map_cons,
    List.map_map]
  refine congrArg₂ _ (by simp) (List.map_congr_left fun k _ => ?_)
  show (t.drop ((k + 1) * size)).take size
      = (((t.drop size).drop (k * size))).take size
  rw [List.drop_drop, Nat.succ_mul]
  ring_nf

theorem batchSlices_ne_nil_iff (t : List α) (size : Nat) (hs : 1 ≤ size) :
    batchSlices t size ≠ [] ↔ t ≠ [] := by
  constructor
  · intro h hnil
    subst hnil
    exact h (batchSlices_nil size)
  · intro h
    rw [batchSlices_cons t size hs h]
    exact List.cons_ne_nil _ _

theorem batchSlices_join (size : Nat) (hs : 1 ≤ size) :
    ∀ t : List α, (batchSlices t size).flatten = t := by
  have H : ∀ n (t : List α), t.length ≤ n → (batchSlices t size).flatten = t := by
    intro n
    induction n with
    | zero =>
      intro t ht
      have : t = [] := List.length_eq_zero.mp (by omega)
      subst this
      simp [batchSlices_nil]
    | succ n ih =>
      intro t ht
      rcases eq_or_ne t [] with rfl | hne
      · simp [batchSlices_nil]
      · have hL : 1 ≤ t.length := List.length_pos.mpr hne
        rw [batchSlices_cons t size hs hne, List.flatten_cons,
          ih (t.drop size) (by rw [List.length_drop]; omega)]
        exact List.take_append_drop size t
  exact fun t => H t.length t le_rfl

theorem batchSlices_mem_len (size : Nat) (hs : 1 ≤ size) :
    ∀ (t : List α), ∀ b ∈ batchSlices t size,
      1 ≤ b.length ∧ b.length ≤ size := by
  have H : ∀ n (t : List α), t.length ≤ n → ∀ b ∈ batchSlices t size,
      1 ≤ b.length ∧ b.length ≤ size := by
    intro n
    induction n with
    | zero =>
      intro t ht b hb
      have : t = [] := List.length_eq_zero.mp (by omega)
      subst this
      rw [batchSlices_nil] at hb
      exact absurd hb (List.not_mem_nil b)
    | succ n ih =>
      intro t ht b hb
      rcases eq_or_ne t [] with rfl | hne
      · rw [batchSlices_nil] at hb
        exact absurd hb (List.not_mem_nil b)
      · have hL : 1 ≤ t.length := List.length_pos.mpr hne
        rw [batchSlices_cons t size hs hne] at hb
        rcases List.mem_cons.mp hb with rfl | hb2
        · rw [List.length_take]
          omega
        · exact ih (t.drop size) (by rw [List.length_drop]; omega) b hb2
  exact fun t => H t.length t le_rfl

theorem batchSlices_nonfinal (size : Nat) (hs : 1 ≤ size) :
    ∀ (t : List α) (i : Nat) (b : List α),
      (batchSlices t size).get? i = some b →
      b.length = size ∨ i = (batchSlices t size).length - 1 := by
  have H : ∀ n (t : List α), t.length ≤ n → ∀ (i : Nat) (b : List α),
      (batchSlices t size).get? i = some b →
      b.length = size ∨ i = (batchSlices t size).length - 1 := by
    intro n
    induction n with
    | zero =>
      intro t ht i b hb
      have : t = [] := List.length_eq_zero.mp (by omega)
      subst this
      rw [batchSlices_nil] at hb
      exact absurd hb (by simp)
    | succ n ih =>
      intro t ht i b hb
      rcases eq_or_ne t [] with rfl | hne
      · rw [batchSlices_nil] at hb
        exact absurd hb (by simp)
      · have hL : 1 ≤ t.length := List.length_pos.mpr hne
        rw [batchSlices_cons t size hs hne] at hb
        rw [batchSlices_cons t size hs hne]
        cases i with
        | zero =>
          rcases eq_or_ne (t.drop size) [] with hdrop | hdrop
          · right
            rw [hdrop, batchSlices_nil]
            rfl
          · left
            have hgt : size < t.length := by
              have := List.length_pos.mpr hdrop
              rw [List.length_drop] at this
              omega
            have hbt : t.take size = b := by simpa using hb
            subst hbt
            rw [List.length_take]
            omega
        | succ i =>
          have hb2 : (batchSlices (t.drop size) size).get? i = some b := by
            simpa using hb
          rcases ih (t.drop size) (by rw [List.length_drop]; omega) i b hb2
            with h | h
          · exact Or.inl h
          · right
            have hne2 : batchSlices (t.drop size) size ≠ [] := by
              intro hcon
              rw [hcon] at hb2
              exact absurd hb2 (by simp)
            have hpos : 1 ≤ (batchSlices (t.drop size) size).length :=
              List.length_pos.mpr hne2
            simp only [List.length_cons]
            omega
  exact fun t => H t.length t le_rfl

theorem batchSlices_exact (t : List α) (size : Nat) (hs : 1 ≤ size)
    (hlen : t.length = size) : batchSlices t size = [t] := by
  have hne : t ≠ [] := by
    intro h
    subst h
    simp at hlen
    omega
  rw [batchSlices_cons t size hs hne,
    List.drop_eq_nil_of_le (by omega), batchSlices_nil,
    ← hlen, List.take_length]

/-- C2: for every record list and size at least 1, concatenating the
batches in order reconstructs the records exactly; every batch holds
between 1 and size records; every non-final batch holds exactly size; the
empty list yields zero batches; and a list of length exactly size yields
one batch equal to the whole list. -/
theorem c2_batching_round_trip (size : Nat) (hs : 1 ≤ size)
    (t : List Nat) :
    (batchSlices t size).flatten = t ∧
    (∀ b ∈ batchSlices t size, 1 ≤ b.length ∧ b.length ≤ size) ∧
    (∀ (i : Nat) (b : List Nat), (batchSlices t size).get? i = some b →
      b.length = size ∨ i = (batchSlices t size).length - 1) ∧
    (t = [] → batchSlices t size = []) ∧
    (t.length = size → batchSlices t size = [t]) :=
  ⟨batchSlices_join size hs t, batchSlices_mem_len size hs t,
   batchSlices_nonfinal size hs t,
   fun h => h ▸ batchSlices_nil size,
   fun h => batchSlices_exact t size hs h⟩

/-- Witness for C2: three records with batch size two. -/
theorem c2_witness :
    (batchSlices [10, 20, 30] 2).flatten = [10, 20, 30] ∧
    (∀ b ∈ batchSlices [10, 20, 30] 2, 1 ≤ b.length ∧ b.length ≤ 2) ∧
    (∀ (i : Nat) (b : List Nat), (batchSlices [10, 20, 30] 2).get? i = some b →
      b.length = 2 ∨ i = (batchSlices [10, 20, 30] 2).length - 1) ∧
    ([10, 20, 30] = ([] : List Nat) → batchSlices [10, 20, 30] 2 = []) ∧
    (([10, 20, 30] : List Nat).length = 2 → batchSlices [10, 20, 30] 2 = [[10, 20, 30]]) :=
  c2_batching_round_trip 2 (by decide) [10, 20, 30]

end QBandas

namespace QBandas

/-! ## The parse functions of parsers.py and the transform/payloads
pipeline of qbandas/init.

The parsers module imported by the pipeline is absent from the tree; its
functions are embedded from the top-level parsers.py, whose signatures
(col and units/format keywords) are exactly what the pipeline binds. -/

/-- Python x *= 1000 on a scalar: ints and floats scale, booleans promote
to int, strings repeat (the Python string-repetition quirk), anything
else raises. -/
def pyMul1000 : RawVal → Except Err RawVal
  | .i n => .ok (.i (n * 1000))
  | .q x => .ok (.q (x * 1000))
  | .b v => .ok (.i (if v then 1000 else 0))
  | .s t => .ok (.s (String.join (List.replicate 1000 t)))
  | _ => .error .typeErr

/-- parsers.default: identical body to pack._pack_default. -/
def parse_default (x : RawVal) : Except Err Packed :=
  if isna x then .ok none
  else .ok (some [("value", x)])

/-- parsers.duration: absent on null; seconds scales by 1000 before the
int coercion, milliseconds passes through, other units raise; the result
wraps int(x). -/
def parse_duration (x : RawVal) (col : String) (units : String) :
    Except Err Packed :=
  if isna x then .ok none
  else
    match (if units = "seconds" then pyMul1000 x
           else if units = "milliseconds" then .ok x
           else .error (.unitErr units)) with
    | .error e => .error e
    | .ok y =>
        match pyInt y with
        | .error e => .error e
        | .ok n => .ok (some [("value", .i n)])

/-- parsers.date: same body as the date packer with an explicit format. -/
def parse_date (x : RawVal) (col : String) (format : String) :
    Except Err Packed :=
  datePackCore x format

/-- parsers.datetimes: same body as the datetime packer with an explicit
format. -/
def parse_datetime (x : RawVal) (col : String) (format : String) :
    Except Err Packed :=
  datetimePackCore x format

/-- parsers.phonenum: same body as the phone packer with an explicit
format. -/
def parse_phonenum (x : RawVal) (col : String) (format : String) :
    Except Err Packed :=
  phonePackCore x format

/-- A column declaration: either a bare type tag or a tuple of the tag
and its argument strings (Python distinguishes the two when checking for
the drop tag). -/
inductive ColType where
  | plain (tag : String)
  | tup (tag : String) (args : List String)
deriving DecidableEq, Repr

/-- Apply a parse function down a column; the first exception aborts the
whole transform. -/
def mapPack (f : RawVal → Except Err Packed) : List RawVal →
    Except Err (List Packed)
  | [] => .ok []
  | v :: vs =>
      match f v with
      | .error e => .error e
      | .ok p =>
          match mapPack f vs with
          | .error e => .error e
          | .ok ps => .ok (p :: ps)

/-- The elif chain of transform that chooses and partially applies a
parse function for a declared type, raising when a required argument is
missing or the tag is unknown. -/
def resolveParser (col tag : String) (args : List String) :
    Except Err (RawVal → Except Err Packed) :=
  if tag = "numeric" ∨ tag = "checkbox" ∨ tag = "text" ∨ tag = "email" then
    .ok parse_default
  else if tag = "duration" then
    match args with
    | [] => .error (.missingArg col)
    | u :: _ => .ok (fun x => parse_duration x col u)
  else if tag = "date" then
    match args with
    | [] => .error (.missingArg col)
    | f :: _ => .ok (fun x => parse_date x col f)
  else if tag = "datetime" then
    match args with
    | [] => .error (.missingArg col)
    | f :: _ => .ok (fun x => parse_datetime x col f)
  else if tag = "phone" then
    match args with
    | [] => .error (.missingArg col)
    | f :: _ => .ok (fun x => parse_phonenum x col f)
  else .error (.invalidType col)

/-- qbandas.transform: walk the dataframe columns in order; a column
missing from col_types raises; a bare drop declaration skips the column;
otherwise the resolved parse function is applied to every cell and the
packed column is emitted under its original name. -/
def transform (df : List (String × List RawVal))
    (col_types : List (String × ColType)) :
    Except Err (List (String × List Packed)) :=
  match df with
  | [] => .ok []
  | (col, vals) :: rest =>
      match col_types.lookup col with
      | none => .error (.missingColType col)
      | some decl =>
          if decl = ColType.plain "drop" then transform rest col_types
          else
            match resolveParser col
                (match decl with | .plain tag => tag | .tup tag _ => tag)
                (match decl with | .plain _ => [] | .tup _ args => args) with
            | .error e => .error e
            | .ok f =>
                match mapPack f vals with
                | .error e => .error e
                | .ok packed =>
                    match transform rest col_types with
                    | .error e => .error e
                    | .ok out => .ok ((col, packed) :: out)

/-- The value at a field identifier of an emitted record: the raw
constructor states the single-scalar reading of the spec, the obj
constructor the packed-dict value the code actually stores. -/
inductive RecVal where
  | raw (v : RawVal)
  | obj (d : PackedDict)
deriving DecidableEq, Repr

/-- One emitted record: field identifier to record value. -/
abbrev Record := List (String × RecVal)

/-- qbandas.payloads: validate that every column has a field identifier,
rename columns to their identifiers, convert each row to a dict keeping
exactly the non-null entries (each kept value is the packed dict itself),
and slice the record list into batches. -/
def payloads (df : List (String × List Packed))
    (fids : List (String × String)) (size : Nat) :
    Except Err (List (List Record)) :=
  match df.find? (fun c => ((fids.lookup c.1).isNone : Bool)) with
  | some c => .error (.fidMissing c.1)
  | none =>
      let nrows := df.foldr (fun c m => max c.2.length m) 0
      let records := (List.range nrows).map (fun r =>
        df.filterMap (fun c =>
          match c.2.get? r with
          | some (some d) => some ((fids.lookup c.1).getD c.1, RecVal.obj d)
          | _ => none))
      .ok (batchSlices records size)

/-- The C1 scenario dataframe: nums = 1, null; durr = 5, 10. -/
def c1_df : List (String × List RawVal) :=
  [("nums", [.i 1, .null]), ("durr", [.i 5, .i 10])]

/-- The C1 declarations: nums numeric, durr duration in seconds. -/
def c1_col_types : List (String × ColType) :=
  [("nums", .plain "numeric"), ("durr", .tup "duration" ["seconds"])]

/-- The C1 field identifier map. -/
def c1_fids : List (String × String) :=
  [("nums", "6"), ("durr", "9")]

/-- transform then payloads at batch size 20000 on the C1 scenario. -/
def c1_pipeline : Except Err (List (List Record)) :=
  match transform c1_df c1_col_types with
  | .error e => .error e
  | .ok packed => payloads packed c1_fids 20000

/-- What the pipeline emits: records map field identifiers to the whole
packed dicts. -/
def c1_actual : List (List Record) :=
  [[[("6", .obj [("value", .i 1)]), ("9", .obj [("value", .i 5000)])],
    [("9", .obj [("value", .i 10000)])]]]

/-- The output the claim describes, with each field identifier mapped
directly to the packed value's inner scalar. -/
def c1_claimed : List (List Record) :=
  [[[("6", .raw (.i 1)), ("9", .raw (.i 5000))],
    [("9", .raw (.i 10000))]]]

/-- C1 counterexample: on the stated scenario the pipeline emits one
batch of records whose values are the whole single-key packed dicts, not
the inner scalars the claim describes. -/
theorem c1_counterexample :
    c1_pipeline = .ok c1_actual ∧ c1_claimed ≠ c1_actual :=
  ⟨by decide, by decide⟩

/-- C1 (amended): the scenario produces exactly one batch of two records;
each record maps the field identifier to the packed single-key dict, and
row two's absent nums entry is omitted from its record. -/
theorem c1_wrapped_records :
    c1_pipeline
      = .ok [[[("6", .obj [("value", .i 1)]), ("9", .obj [("value", .i 5000)])],
              [("9", .obj [("value", .i 10000)])]]] := by
  decide

end QBandas

namespace QBandas

/-! ## The field_types registry of config.py and the packing loop of
upload_records (upload.py).

Registry descriptions are abbreviated; the semantic content is the type
name and whether a packing function is registered (None entries are the
unsupported types). -/

/-- The uniform shape of a registered packing function. -/
abbrev PackFn := RawVal → Option String → Except Err Packed

/-- One registry entry: a human description and an optional packer. -/
structure FTInfo where
  info : String
  pack : Option PackFn

/-- config.field_types: every declared type name, in source order, with
its packer or None. -/
def field_types : List (String × FTInfo) :=
  [("text", ⟨"string of text", some (fun x _ => _pack_default x)⟩),
   ("rich-text", ⟨"html text", some (fun x _ => _pack_default x)⟩),
   ("multi-line-text", ⟨"text with newline support",
      some (fun x _ => _pack_default x)⟩),
   ("multiple-choice-text", ⟨"string indicating selected option",
      some (fun x _ => _pack_default x)⟩),
   ("multi-select", ⟨"list of strings", none⟩),
   ("address", ⟨"composite address field",
      some (fun x _ => _pack_default x)⟩),
   ("email-address", ⟨"valid email addresses as strings",
      some (fun x _ => _pack_default x)⟩),
   ("url", ⟨"string of a url", some (fun x _ => _pack_default x)⟩),
   ("numeric", ⟨"int or float data", some (fun x _ => _pack_default x)⟩),
   ("numeric-percent", ⟨"float from zero to one",
      some (fun x _ => _pack_default x)⟩),
   ("numeric-rating", ⟨"integer from one to five",
      some (fun x _ => _pack_default x)⟩),
   ("numeric-currency", ⟨"float indicating currency",
      some (fun x _ => _pack_default x)⟩),
   ("duration", ⟨"duration in milliseconds", some _pack_duration⟩),
   ("date", ⟨"date as a string or datetime object", some _pack_date⟩),
   ("datetime", ⟨"datetime as a string or datetime object",
      some _pack_datetime⟩),
   ("time-of-day", ⟨"military time as a string", none⟩),
   ("checkbox", ⟨"boolean", some (fun x _ => _pack_default x)⟩),
   ("phone-number", ⟨"phone number as a string", some _pack_phonenum⟩),
   ("user", ⟨"dictionary containing user data", none⟩),
   ("list-user", ⟨"a list of user dicts", none⟩),
   ("file-attachment", ⟨"Not supported", none⟩),
   ("record-id", ⟨"int. default merge field",
      some (fun x _ => _pack_default x)⟩),
   ("lookup", ⟨"Not supported", none⟩),
   ("summary", ⟨"Not supported", none⟩)]

/-- One iteration of the packing loop of upload_records: resolve the
declared type in the registry and apply its packer down the column; any
exception (unknown type, unusable None packer, or packer failure) is
wrapped with the offending column name and declared type. -/
def packOneColumn (col ctype : String) (arg : Option String)
    (vals : List RawVal) : Except Err (List Packed) :=
  match field_types.lookup ctype with
  | none => .error (.colFail col ctype)
  | some fi =>
      match fi.pack with
      | none => .error (.colFail col ctype)
      | some f =>
          match mapPack (fun v => f v arg) vals with
          | .error _ => .error (.colFail col ctype)
          | .ok ps => .ok ps

/-- The packing loop of upload_records over the whole dataframe: columns
absent from the schema are skipped (the drop mode); the first failing
column aborts with its wrapped error. -/
def packColumns (df : List (String × List RawVal))
    (schema : List (String × (String × Option String))) :
    Except Err (List (String × List Packed)) :=
  match df with
  | [] => .ok []
  | (col, vals) :: rest =>
      match schema.lookup col with
      | none => packColumns rest schema
      | some (ctype, arg) =>
          match packOneColumn col ctype arg vals with
          | .error e => .error e
          | .ok ps =>
              match packColumns rest schema with
              | .error e => .error e
              | .ok out => .ok ((col, ps) :: out)

/-- C8: a column declared with a registry type whose packer entry is None
makes its loop iteration raise an error naming that column and type, and
the whole packing loop over any dataframe containing such a column never
returns an output (so no raw values are passed through). -/
theorem c8_unsupported_type_fails
    (df : List (String × List RawVal))
    (schema : List (String × (String × Option String)))
    (col ctype : String) (arg : Option String) (vals : List RawVal)
    (fi : FTInfo)
    (hmem : (col, vals) ∈ df)
    (hschema : schema.lookup col = some (ctype, arg))
    (hft : field_types.lookup ctype = some fi)
    (hnone : fi.pack = none) :
    packOneColumn col ctype arg vals = .error (.colFail col ctype) ∧
    ∀ out, packColumns df schema ≠ .ok out := by
  have hone : ∀ (vals2 : List RawVal) (arg2 : Option String),
      packOneColumn col ctype arg2 vals2 = .error (.colFail col ctype) := by
    intro vals2 arg2
    simp only [packOneColumn, hft, hnone]
  refine ⟨hone vals arg, ?_⟩
  induction df with
  | nil => exact absurd hmem (List.not_mem_nil _)
  | cons hd rest ih =>
    obtain ⟨col2, vals2⟩ := hd
    intro out hcon
    rcases List.mem_cons.mp hmem with heq | htail
    · injection heq with e1 e2
      subst e1
      subst e2
      simp [packColumns, hschema, hone] at hcon
    · simp only [packColumns] at hcon
      split at hcon
      · exact ih htail out hcon
      · split at hcon
        · exact Except.noConfusion hcon
        · split at hcon
          · exact Except.noConfusion hcon
          · rename_i out3 heq2
            exact absurd heq2 (ih htail out3)

/-- Witness for C8: a column declared with the unsupported lookup type. -/
theorem c8_witness :
    packOneColumn "c1" "lookup" none [RawVal.s "x"]
        = .error (.colFail "c1" "lookup") ∧
    ∀ out, packColumns [("c1", [RawVal.s "x"])]
        [("c1", ("lookup", (none : Option String)))] ≠ .ok out :=
  c8_unsupported_type_fails [("c1", [RawVal.s "x"])]
    [("c1", ("lookup", none))] "c1" "lookup" none [RawVal.s "x"]
    ⟨"Not supported", none⟩ (List.Mem.head _) rfl rfl rfl

end QBandas
